import Mathlib

/-!
exchange-service: the data layer bootstrap (`internal/data/data.go`)

A shallow embedding of `NewData`, of the `cleanup` closure it returns and of the
three accessors of `Data`.

The drivers (`gorm`, `go-redis`, `amqp091`, `database/sql`) are outside the
repository.  They are taken as a parameter `Env` of result functions, and every
call the code makes to them is recorded as an `Event`, in program order.  A Go
pointer that may be nil is an `Option`; a Go `(value, error)` result whose value
is usable exactly when the error is nil is an `Except`.
-/

namespace ExchangeService

/-! ## Values handed out by the drivers -/

/-- An `error` value coming from a driver; `msg` is what its `Error()` returns. -/
structure DriverError where
  msg : String
deriving DecidableEq, Repr

/-- A live `*gorm.DB`. -/
structure GormDB where
  id : Nat
deriving DecidableEq, Repr

/-- A live `*sql.DB`, the handle underneath a `*gorm.DB`. -/
structure SqlDB where
  id : Nat
deriving DecidableEq, Repr

/-- A live `*redis.Client`. -/
structure RedisClient where
  id : Nat
deriving DecidableEq, Repr

/-- A live `*amqp091.Connection`. -/
structure AmqpConnection where
  id : Nat
deriving DecidableEq, Repr

/-! ## Configuration (`conf.Data`): the fields `NewData` reads -/

/-- The field `c.Database`. -/
structure ConfDatabase where
  Source : String
deriving DecidableEq, Repr

/-- The field `c.Redis`; the two timeouts are the values of `AsDuration()`. -/
structure ConfRedis where
  Addr : String
  Password : String
  ReadTimeout : Int
  WriteTimeout : Int
deriving DecidableEq, Repr

/-- The field `c.Rabbitmq`. -/
structure ConfRabbitmq where
  Username : String
  Password : String
  Addr : String
  VirtualHost : String
deriving DecidableEq, Repr

/-- The configuration `c *conf.Data`. -/
structure Conf where
  Database : ConfDatabase
  Redis : ConfRedis
  Rabbitmq : ConfRabbitmq
deriving DecidableEq, Repr

/-- The `redis.Options` literal that `NewData` builds. -/
structure RedisOptions where
  Addr : String
  Password : String
  DB : Int
  ReadTimeout : Int
  WriteTimeout : Int
deriving DecidableEq, Repr

/-! ## Calls to the outside world -/

/-- One call made by the code to a driver or to the logger. -/
inductive Event where
  | gormOpen (source : String)
  | redisNewClient (opts : RedisOptions)
  | redisPing (rdb : RedisClient)
  | amqpDial (url : String)
  | logInfo (msg : String)
  | logError (err : DriverError)
  | gormDB (db : GormDB)
  | sqlClose (sqlDB : SqlDB)
  | redisClose (rdb : RedisClient)
  | amqpClose (conn : AmqpConnection)
deriving DecidableEq, Repr

/-- The results of the drivers.  The calls of the bootstrap depend on their
arguments; a `Close` may be issued more than once on the same handle, so its
result may also depend on every call made before it. -/
structure Env where
  gormOpen : String → Except DriverError GormDB
  redisNewClient : RedisOptions → RedisClient
  redisPing : RedisClient → Option DriverError
  amqpDial : String → Except DriverError AmqpConnection
  gormDB : GormDB → Except DriverError SqlDB
  sqlClose : SqlDB → List Event → Option DriverError
  redisClose : RedisClient → List Event → Option DriverError
  amqpClose : AmqpConnection → List Event → Option DriverError

/-! ## `Data`, its accessors and the wrapped error -/

/-- The struct `Data`: three pointer fields. -/
structure Data where
  db : Option GormDB
  rdb : Option RedisClient
  rabbitmq : Option AmqpConnection
deriving DecidableEq, Repr

/-- The method `(d *Data) DB()`: the value returned and the receiver afterwards. -/
def Data.DB (d : Data) : Option GormDB × Data := (d.db, d)

/-- The method `(d *Data) RDB()`: the value returned and the receiver afterwards. -/
def Data.RDB (d : Data) : Option RedisClient × Data := (d.rdb, d)

/-- The method `(d *Data) RabbitMQ()`: the value returned and the receiver afterwards. -/
def Data.RabbitMQ (d : Data) : Option AmqpConnection × Data := (d.rabbitmq, d)

/-- The error built by `fmt.Errorf` with one `%w` verb: its message, and the
error that `Unwrap` returns. -/
structure WrapError where
  msg : String
  err : DriverError
deriving DecidableEq, Repr

/-- The call `fmt.Errorf(text + "%w", err)`. -/
def Errorf (text : String) (err : DriverError) : WrapError :=
  ⟨text ++ err.msg, err⟩

/-- The method `Unwrap` of a wrapped error. -/
def WrapError.Unwrap (e : WrapError) : DriverError := e.err

/-- The message text of `NewData` before `%w` when `gorm.Open` fails. -/
def databaseText : String := "failed to connect to database: "

/-- The message text of `NewData` before `%w` when the Redis ping fails. -/
def redisText : String := "failed to connect to redis: "

/-- The message text of `NewData` before `%w` when the RabbitMQ dial fails. -/
def rabbitmqText : String := "failed to connect to RabbitMQ: "

/-! ## `NewData` -/

/-- The variables captured by the closure `cleanup`. -/
structure Cleanup where
  db : GormDB
  rdb : RedisClient
  rabbitmqConn : AmqpConnection
deriving DecidableEq, Repr

/-- What `NewData` hands back, `(*Data, func(), error)`, and the calls it made. -/
structure NewDataResult where
  data : Option Data
  cleanup : Option Cleanup
  err : Option WrapError
  trace : List Event
deriving DecidableEq, Repr

/-- The `redis.Options` built from the configuration. -/
def redisOptions (c : Conf) : RedisOptions :=
  { Addr := c.Redis.Addr
    Password := c.Redis.Password
    DB := 0
    ReadTimeout := c.Redis.ReadTimeout
    WriteTimeout := c.Redis.WriteTimeout }

/-- The value of `fmt.Sprintf("amqp://%s:%s@%s/%s", ...)`. -/
def rabbitmqConnStr (c : Conf) : String :=
  "amqp://" ++ c.Rabbitmq.Username ++ ":" ++ c.Rabbitmq.Password ++ "@"
    ++ c.Rabbitmq.Addr ++ "/" ++ c.Rabbitmq.VirtualHost

/-- The function `NewData`. -/
def NewData (c : Conf) (env : Env) : NewDataResult :=
  let t1 := [Event.gormOpen c.Database.Source]
  match env.gormOpen c.Database.Source with
  | .error err => ⟨none, none, some (Errorf databaseText err), t1⟩
  | .ok db =>
    let rdb := env.redisNewClient (redisOptions c)
    let t2 := t1 ++ [Event.redisNewClient (redisOptions c), Event.redisPing rdb]
    match env.redisPing rdb with
    | some err => ⟨none, none, some (Errorf redisText err), t2⟩
    | none =>
      let t3 := t2 ++ [Event.amqpDial (rabbitmqConnStr c)]
      match env.amqpDial (rabbitmqConnStr c) with
      | .error err => ⟨none, none, some (Errorf rabbitmqText err), t3⟩
      | .ok rabbitmqConn =>
        ⟨some ⟨some db, some rdb, some rabbitmqConn⟩, some ⟨db, rdb, rabbitmqConn⟩, none, t3⟩

/-! ## The closure `cleanup` -/

/-- How a call ends: it returns, or it panics. -/
inductive Completion where
  | returned
  | panicked
deriving DecidableEq, Repr

/-- The end of one or more calls of `cleanup` and the calls made meanwhile. -/
structure CleanupResult where
  completion : Completion
  events : List Event
deriving DecidableEq, Repr

/-- The statement `if err := x.Close(); err != nil { log.Error(err) }`, after the
`Close` has returned `r`. -/
def logClose (r : Option DriverError) : List Event :=
  match r with
  | some err => [Event.logError err]
  | none => []

/-- One call of the closure `cleanup`, made after the calls `t`.  The error of
`db.DB()` is discarded, and `sqlDB` is nil when there is one; `Close` on a nil
`*sql.DB` reads a field through the nil pointer, which panics. -/
def Cleanup.call (cl : Cleanup) (env : Env) (t : List Event) : CleanupResult :=
  let e0 := [Event.logInfo "closing the data resources", Event.gormDB cl.db]
  match env.gormDB cl.db with
  | .error _ => ⟨Completion.panicked, e0⟩
  | .ok sqlDB =>
    let e1 := e0 ++ [Event.sqlClose sqlDB] ++ logClose (env.sqlClose sqlDB (t ++ e0))
    let e2 := e1 ++ [Event.redisClose cl.rdb] ++ logClose (env.redisClose cl.rdb (t ++ e1))
    let e3 := e2 ++ [Event.amqpClose cl.rabbitmqConn]
      ++ logClose (env.amqpClose cl.rabbitmqConn (t ++ e2))
    ⟨Completion.returned, e3⟩

/-- A caller that invokes `cleanup` `n` times in a row, after the calls `t`; a
panic ends the sequence. -/
def Cleanup.callN (cl : Cleanup) (env : Env) : Nat → List Event → CleanupResult
  | 0, _ => ⟨Completion.returned, []⟩
  | n + 1, t =>
    match cl.call env t with
    | ⟨Completion.panicked, evs⟩ => ⟨Completion.panicked, evs⟩
    | ⟨Completion.returned, evs⟩ =>
      let r := Cleanup.callN cl env n (t ++ evs)
      ⟨r.completion, evs ++ r.events⟩

/-! ## Reading a sequence of calls -/

/-- The three resource kinds. -/
inductive Kind where
  | Database
  | Cache
  | Broker
deriving DecidableEq, Repr

/-- The order in which `NewData` acquires the kinds. -/
def declaredOrder : List Kind := [Kind.Database, Kind.Cache, Kind.Broker]

/-- The kind whose connector a call starts, if it starts one. -/
def attemptOf : Event → Option Kind
  | Event.gormOpen _ => some Kind.Database
  | Event.redisNewClient _ => some Kind.Cache
  | Event.amqpDial _ => some Kind.Broker
  | _ => none

/-- The connectors attempted by a sequence of calls, in order. -/
def attempted (evs : List Event) : List Kind := evs.filterMap attemptOf

/-- The kind whose handle a call closes, if it is a `Close`. -/
def closeOf : Event → Option Kind
  | Event.sqlClose _ => some Kind.Database
  | Event.redisClose _ => some Kind.Cache
  | Event.amqpClose _ => some Kind.Broker
  | _ => none

/-- The kinds closed by a sequence of calls, in order. -/
def closed (evs : List Event) : List Kind := evs.filterMap closeOf

/-- The `Close` calls of a sequence of calls, in order. -/
def closes (evs : List Event) : List Event := evs.filter fun ev => (closeOf ev).isSome

/-- The error a call hands to `log.Error`, if it is one. -/
def loggedOf : Event → Option DriverError
  | Event.logError err => some err
  | _ => none

/-- The errors written to the log by a sequence of calls, in order. -/
def logged (evs : List Event) : List DriverError := evs.filterMap loggedOf

/-- The outcome of the connector of a kind under a configuration: `none` when
connecting and verifying succeed, the driver's error otherwise. -/
def outcome (c : Conf) (env : Env) : Kind → Option DriverError
  | Kind.Database =>
    match env.gormOpen c.Database.Source with
    | .ok _ => none
    | .error err => some err
  | Kind.Cache => env.redisPing (env.redisNewClient (redisOptions c))
  | Kind.Broker =>
    match env.amqpDial (rabbitmqConnStr c) with
    | .ok _ => none
    | .error err => some err

/-- Whether the connector of a kind succeeds. -/
def succeeds (c : Conf) (env : Env) (k : Kind) : Bool := (outcome c env k).isNone

/-- A list of kinds cut after its first member that does not succeed. -/
def cutAtFirstFailure (ok : Kind → Bool) : List Kind → List Kind
  | [] => []
  | k :: ks => if ok k then k :: cutAtFirstFailure ok ks else [k]

/-- The first kind of the declared order whose connector fails, with its error. -/
def firstFailure (c : Conf) (env : Env) : Option (Kind × DriverError) :=
  declaredOrder.findSome? fun k => (outcome c env k).map fun err => (k, err)

/-- The message text `NewData` uses for a failure of a kind. -/
def textOf : Kind → String
  | Kind.Database => databaseText
  | Kind.Cache => redisText
  | Kind.Broker => rabbitmqText

/-! ## Sample configuration and drivers -/

/-- A sample configuration. -/
def sampleConf : Conf :=
  { Database := { Source := "user:pw@tcp(127.0.0.1:3306)/exchange" }
    Redis := { Addr := "127.0.0.1:6379", Password := "", ReadTimeout := 200000000,
               WriteTimeout := 200000000 }
    Rabbitmq := { Username := "guest", Password := "guest", Addr := "127.0.0.1:5672",
                  VirtualHost := "" } }

/-- Drivers for which every call succeeds. -/
def envAllOk : Env :=
  { gormOpen := fun _ => .ok ⟨1⟩
    redisNewClient := fun _ => ⟨2⟩
    redisPing := fun _ => none
    amqpDial := fun _ => .ok ⟨3⟩
    gormDB := fun _ => .ok ⟨4⟩
    sqlClose := fun _ _ => none
    redisClose := fun _ _ => none
    amqpClose := fun _ _ => none }

/-- Drivers for which the Redis ping fails. -/
def envPingFails : Env :=
  { envAllOk with redisPing := fun _ => some ⟨"i/o timeout"⟩ }

/-- Drivers for which the Redis ping fails, with other handles. -/
def envPingRefused : Env :=
  { envAllOk with
    gormOpen := fun _ => .ok ⟨10⟩
    redisNewClient := fun _ => ⟨20⟩
    redisPing := fun _ => some ⟨"connection refused"⟩ }

/-- Drivers for which the RabbitMQ dial fails. -/
def envDialFails : Env :=
  { envAllOk with amqpDial := fun _ => .error ⟨"connection refused"⟩ }

/-- Drivers for which every `Close` returns an error. -/
def envCloseErrors : Env :=
  { envAllOk with
    sqlClose := fun _ _ => some ⟨"sql: close failed"⟩
    redisClose := fun _ _ => some ⟨"redis: client is closed"⟩
    amqpClose := fun _ _ => some ⟨"Exception (504) Reason: channel/connection is not open"⟩ }

/-- Drivers at shutdown in the case where `db.DB()` returns a nil handle and an
error, which gorm does for a `*gorm.DB` whose `ConnPool` is not a `*sql.DB`.  For
the handle as `NewData` opens it (mysql dialector, default `gorm.Config`) gorm
returns the `*sql.DB`, so this case needs the pool to have been replaced after
the bootstrap; `ConnPool` is an exported field and `Data.DB()` hands the
`*gorm.DB` to the rest of the service. -/
def envNoSqlDB : Env :=
  { envAllOk with gormDB := fun _ => .error ⟨"invalid db"⟩ }

/-- The closure returned by `NewData` under `envAllOk`. -/
def sampleCleanup : Cleanup := ⟨⟨1⟩, ⟨2⟩, ⟨3⟩⟩

/-! ## Lemmas on `NewData` -/

/-- The connectors `NewData` attempts are the declared order cut after the first
connector that fails. -/
theorem attempted_NewData (c : Conf) (env : Env) :
    attempted (NewData c env).trace = cutAtFirstFailure (succeeds c env) declaredOrder := by
  unfold NewData
  cases h1 : env.gormOpen c.Database.Source with
  | error e1 =>
    simp [attempted, attemptOf, cutAtFirstFailure, succeeds, outcome, declaredOrder, h1]
  | ok db =>
    cases h2 : env.redisPing (env.redisNewClient (redisOptions c)) with
    | some e2 =>
      simp [attempted, attemptOf, cutAtFirstFailure, succeeds, outcome, declaredOrder, h1, h2]
    | none =>
      cases h3 : env.amqpDial (rabbitmqConnStr c) with
      | error e3 =>
        simp [attempted, attemptOf, cutAtFirstFailure, succeeds, outcome, declaredOrder,
          h1, h2, h3]
      | ok conn =>
        simp [attempted, attemptOf, cutAtFirstFailure, succeeds, outcome, declaredOrder,
          h1, h2, h3]

/-- No path through `NewData` calls a `Close`. -/
theorem closed_NewData (c : Conf) (env : Env) : closed (NewData c env).trace = [] := by
  unfold NewData
  cases h1 : env.gormOpen c.Database.Source with
  | error e1 => simp [closed, closeOf]
  | ok db =>
    cases h2 : env.redisPing (env.redisNewClient (redisOptions c)) with
    | some e2 => simp [closed, closeOf, h2]
    | none =>
      cases h3 : env.amqpDial (rabbitmqConnStr c) <;> simp [closed, closeOf, h2, h3]

/-- Two messages of `NewData` that are equal were built for the same kind: the
three texts differ at their character of index 21. -/
theorem textOf_append_inj (k1 k2 : Kind) (m1 m2 : String)
    (h : textOf k1 ++ m1 = textOf k2 ++ m2) : k1 = k2 := by
  have h21 := congrArg (fun s => s.data[21]?) h
  cases k1 <;> cases k2 <;>
    first
    | rfl
    | (exfalso
       simp [textOf, databaseText, redisText, rabbitmqText] at h21)

/-! ## Lemmas on `cleanup` -/

/-- One call of `cleanup` when `db.DB()` yields the handle `sqlDB`. -/
theorem call_of_sqlDB (cl : Cleanup) (env : Env) (t : List Event) (sqlDB : SqlDB)
    (hdb : env.gormDB cl.db = .ok sqlDB) :
    cl.call env t =
      ⟨Completion.returned,
        [Event.logInfo "closing the data resources", Event.gormDB cl.db]
          ++ [Event.sqlClose sqlDB]
          ++ logClose (env.sqlClose sqlDB
              (t ++ [Event.logInfo "closing the data resources", Event.gormDB cl.db]))
          ++ [Event.redisClose cl.rdb]
          ++ logClose (env.redisClose cl.rdb
              (t ++ ([Event.logInfo "closing the data resources", Event.gormDB cl.db]
                ++ [Event.sqlClose sqlDB]
                ++ logClose (env.sqlClose sqlDB
                    (t ++ [Event.logInfo "closing the data resources", Event.gormDB cl.db])))))
          ++ [Event.amqpClose cl.rabbitmqConn]
          ++ logClose (env.amqpClose cl.rabbitmqConn
              (t ++ ([Event.logInfo "closing the data resources", Event.gormDB cl.db]
                ++ [Event.sqlClose sqlDB]
                ++ logClose (env.sqlClose sqlDB
                    (t ++ [Event.logInfo "closing the data resources", Event.gormDB cl.db]))
                ++ [Event.redisClose cl.rdb]
                ++ logClose (env.redisClose cl.rdb
                    (t ++ ([Event.logInfo "closing the data resources", Event.gormDB cl.db]
                      ++ [Event.sqlClose sqlDB]
                      ++ logClose (env.sqlClose sqlDB
                          (t ++ [Event.logInfo "closing the data resources",
                            Event.gormDB cl.db]))))))))⟩ := by
  simp [Cleanup.call, hdb]

/-- The `Close` calls of two sequences of calls put end to end. -/
theorem closes_append (a b : List Event) : closes (a ++ b) = closes a ++ closes b := by
  simp [closes]

/-- The `Close` calls of a logging step: none. -/
theorem closes_logClose (r : Option DriverError) : closes (logClose r) = [] := by
  cases r <;> simp [closes, logClose, closeOf]

/-- The number of occurrences of a `Close` call in a logging step: none. -/
theorem count_logClose (r : Option DriverError) (ev : Event) (hev : (closeOf ev).isSome) :
    (logClose r).count ev = 0 := by
  cases r with
  | none => simp [logClose]
  | some err =>
    cases ev <;> simp [closeOf] at hev <;> simp [logClose]

/-- One call of `cleanup` that gets the handle `sqlDB` returns after exactly the
three `Close` calls, database first. -/
theorem call_closes (cl : Cleanup) (env : Env) (t : List Event) (sqlDB : SqlDB)
    (hdb : env.gormDB cl.db = .ok sqlDB) :
    (cl.call env t).completion = Completion.returned
    ∧ closes (cl.call env t).events
        = [Event.sqlClose sqlDB, Event.redisClose cl.rdb, Event.amqpClose cl.rabbitmqConn] := by
  rw [call_of_sqlDB cl env t sqlDB hdb]
  refine ⟨rfl, ?_⟩
  simp only [closes_append, closes_logClose]
  simp [closes, closeOf]

/-- One call of `cleanup` that gets the handle `sqlDB` calls each `Close` once. -/
theorem call_counts (cl : Cleanup) (env : Env) (t : List Event) (sqlDB : SqlDB)
    (hdb : env.gormDB cl.db = .ok sqlDB) :
    (cl.call env t).events.count (Event.sqlClose sqlDB) = 1
    ∧ (cl.call env t).events.count (Event.redisClose cl.rdb) = 1
    ∧ (cl.call env t).events.count (Event.amqpClose cl.rabbitmqConn) = 1 := by
  rw [call_of_sqlDB cl env t sqlDB hdb]
  simp [List.count_append, count_logClose, closeOf]

/-- After `n` calls of `cleanup`, each of which gets the handle `sqlDB`, each
`Close` has been called `n` times. -/
theorem callN_counts (cl : Cleanup) (env : Env) (sqlDB : SqlDB)
    (hdb : env.gormDB cl.db = .ok sqlDB) (n : Nat) :
    ∀ t : List Event,
      (cl.callN env n t).completion = Completion.returned
      ∧ (cl.callN env n t).events.count (Event.sqlClose sqlDB) = n
      ∧ (cl.callN env n t).events.count (Event.redisClose cl.rdb) = n
      ∧ (cl.callN env n t).events.count (Event.amqpClose cl.rabbitmqConn) = n := by
  induction n with
  | zero => intro t; simp [Cleanup.callN]
  | succ n ih =>
    intro t
    obtain ⟨hc, _⟩ := call_closes cl env t sqlDB hdb
    obtain ⟨h1, h2, h3⟩ := call_counts cl env t sqlDB hdb
    have hsplit : cl.call env t = ⟨Completion.returned, (cl.call env t).events⟩ := by
      rw [← hc]
    obtain ⟨i0, i1, i2, i3⟩ := ih (t ++ (cl.call env t).events)
    rw [Cleanup.callN, hsplit]
    simp only [List.count_append]
    refine ⟨i0, ?_, ?_, ?_⟩ <;> omega

/-- What `NewData` returns when it returns a closure: the three calls succeeded
and the closure holds their handles. -/
theorem cleanup_of_NewData (c : Conf) (env : Env) (cl : Cleanup)
    (hcl : (NewData c env).cleanup = some cl) :
    env.gormOpen c.Database.Source = .ok cl.db
    ∧ cl.rdb = env.redisNewClient (redisOptions c)
    ∧ env.redisPing cl.rdb = none
    ∧ env.amqpDial (rabbitmqConnStr c) = .ok cl.rabbitmqConn
    ∧ (NewData c env).data = some ⟨some cl.db, some cl.rdb, some cl.rabbitmqConn⟩
    ∧ (NewData c env).err = none := by
  unfold NewData at hcl ⊢
  cases h1 : env.gormOpen c.Database.Source with
  | error e1 => simp [h1] at hcl
  | ok db =>
    cases h2 : env.redisPing (env.redisNewClient (redisOptions c)) with
    | some e2 => simp [h1, h2] at hcl
    | none =>
      cases h3 : env.amqpDial (rabbitmqConnStr c) with
      | error e3 => simp [h1, h2, h3] at hcl
      | ok conn =>
        simp [h1, h2, h3] at hcl
        subst hcl
        simp [h2]

/-! ## The order of acquisition -/

/-- C4: for every configuration and every outcome of the connectors, the
connectors `NewData` attempts are the declared order Database, Cache, Broker cut
after the first connector that fails, hence an initial segment of that order: the
database is always attempted, the cache exactly when the database succeeded, the
broker exactly when database and cache succeeded.  The sequence is computed from
the outcomes alone, so any other run with the same outcomes attempts the same
sequence. -/
theorem NewData_attempts_stop_at_first_failure (c : Conf) (env : Env) :
    attempted (NewData c env).trace = cutAtFirstFailure (succeeds c env) declaredOrder
    ∧ attempted (NewData c env).trace <+: declaredOrder
    ∧ Kind.Database ∈ attempted (NewData c env).trace
    ∧ (Kind.Cache ∈ attempted (NewData c env).trace ↔ succeeds c env Kind.Database = true)
    ∧ (Kind.Broker ∈ attempted (NewData c env).trace ↔
        succeeds c env Kind.Database = true ∧ succeeds c env Kind.Cache = true)
    ∧ (∀ (c2 : Conf) (env2 : Env), (∀ k, succeeds c2 env2 k = succeeds c env k) →
        attempted (NewData c2 env2).trace = attempted (NewData c env).trace) := by
  refine ⟨attempted_NewData c env, ?_, ?_, ?_, ?_, ?_⟩
  · rw [attempted_NewData]
    cases hd : succeeds c env Kind.Database <;> cases hc : succeeds c env Kind.Cache <;>
      cases hb : succeeds c env Kind.Broker <;>
      simp [cutAtFirstFailure, declaredOrder, hd, hc, hb]
  · rw [attempted_NewData]
    cases hd : succeeds c env Kind.Database <;> simp [cutAtFirstFailure, declaredOrder, hd]
  · rw [attempted_NewData]
    cases hd : succeeds c env Kind.Database <;> cases hc : succeeds c env Kind.Cache <;>
      simp [cutAtFirstFailure, declaredOrder, hd, hc]
  · rw [attempted_NewData]
    cases hd : succeeds c env Kind.Database <;> cases hc : succeeds c env Kind.Cache <;>
      cases hb : succeeds c env Kind.Broker <;>
      simp [cutAtFirstFailure, declaredOrder, hd, hc, hb]
  · intro c2 env2 h
    rw [attempted_NewData, attempted_NewData]
    have hfun : succeeds c2 env2 = succeeds c env := funext h
    rw [hfun]

/-! ## What `NewData` returns -/

/-- C5: `NewData` returns a non-nil `*Data`, a non-nil closure and a nil error
exactly when the database open, the Redis ping and the RabbitMQ dial all succeed,
and then the three fields of the `Data` are populated and the error is nil; in
every other case it returns a nil `*Data`, a nil closure and a non-nil error. -/
theorem NewData_all_or_nothing (c : Conf) (env : Env) :
    (((NewData c env).data.isSome = true ∧ (NewData c env).cleanup.isSome = true
        ∧ (NewData c env).err = none) ↔
      (succeeds c env Kind.Database = true ∧ succeeds c env Kind.Cache = true
        ∧ succeeds c env Kind.Broker = true))
    ∧ (((NewData c env).data = none ∧ (NewData c env).cleanup = none
        ∧ (NewData c env).err.isSome = true) ↔
      ¬ (succeeds c env Kind.Database = true ∧ succeeds c env Kind.Cache = true
        ∧ succeeds c env Kind.Broker = true))
    ∧ (∀ d, (NewData c env).data = some d →
        d.db.isSome = true ∧ d.rdb.isSome = true ∧ d.rabbitmq.isSome = true) := by
  unfold NewData
  cases h1 : env.gormOpen c.Database.Source with
  | error e1 => simp [succeeds, outcome, h1]
  | ok db =>
    cases h2 : env.redisPing (env.redisNewClient (redisOptions c)) with
    | some e2 => simp [succeeds, outcome, h1, h2]
    | none =>
      cases h3 : env.amqpDial (rabbitmqConnStr c) with
      | error e3 => simp [succeeds, outcome, h1, h2, h3]
      | ok conn =>
        simp only [succeeds, outcome, h1, h2, h3]
        refine ⟨by simp, by simp, ?_⟩
        intro d hd
        simp at hd
        subst hd
        simp

/-- C7: when `NewData` returns an error, that error wraps the error of the first
connector of the order Database, Cache, Broker that failed: `Unwrap` yields
exactly that driver error, and the message is the text of that kind followed by
the driver's message.  The three texts are pairwise distinct, and the kind is
determined by the returned message: any failing run whose message is the same
failed on the same kind. -/
theorem NewData_error_names_first_failure (c : Conf) (env : Env) (e : WrapError)
    (he : (NewData c env).err = some e) :
    ∃ k cause,
      firstFailure c env = some (k, cause)
      ∧ e.Unwrap = cause
      ∧ e.msg = textOf k ++ cause.msg
      ∧ (∀ k2, textOf k2 = textOf k → k2 = k)
      ∧ (∀ (c2 : Conf) (env2 : Env) (e2 : WrapError) (k2 : Kind) (cause2 : DriverError),
          (NewData c2 env2).err = some e2 → firstFailure c2 env2 = some (k2, cause2) →
          e2.msg = e.msg → k2 = k) := by
  have key : ∀ (c : Conf) (env : Env) (e : WrapError), (NewData c env).err = some e →
      ∃ k cause, firstFailure c env = some (k, cause) ∧ e.Unwrap = cause
        ∧ e.msg = textOf k ++ cause.msg := by
    intro c env e he
    unfold NewData at he
    cases h1 : env.gormOpen c.Database.Source with
    | error e1 =>
      simp [h1] at he
      subst he
      exact ⟨Kind.Database, e1, by simp [firstFailure, declaredOrder, outcome, h1], rfl, rfl⟩
    | ok db =>
      cases h2 : env.redisPing (env.redisNewClient (redisOptions c)) with
      | some e2 =>
        simp [h1, h2] at he
        subst he
        exact ⟨Kind.Cache, e2, by simp [firstFailure, declaredOrder, outcome, h1, h2], rfl, rfl⟩
      | none =>
        cases h3 : env.amqpDial (rabbitmqConnStr c) with
        | error e3 =>
          simp [h1, h2, h3] at he
          subst he
          exact ⟨Kind.Broker, e3, by simp [firstFailure, declaredOrder, outcome, h1, h2, h3],
            rfl, rfl⟩
        | ok conn => simp [h1, h2, h3] at he
  obtain ⟨k, cause, hf, hu, hm⟩ := key c env e he
  refine ⟨k, cause, hf, hu, hm, ?_, ?_⟩
  · intro k2 h
    exact textOf_append_inj k2 k "" "" (by rw [h])
  · intro c2 env2 e2 k2 cause2 he2 hf2 hmsg
    obtain ⟨k3, cause3, hf3, _, hm3⟩ := key c2 env2 e2 he2
    rw [hf2] at hf3
    simp at hf3
    obtain ⟨hk, hc⟩ := hf3
    subst hk
    subst hc
    rw [hm3, hm] at hmsg
    exact textOf_append_inj k2 k _ _ hmsg

/-- The theorem of C7 on a run where the database opens and the Redis ping times
out. -/
theorem NewData_error_names_first_failure_witness :
    (NewData sampleConf envPingFails).err = some (Errorf redisText ⟨"i/o timeout"⟩)
    ∧ ∃ k cause,
      firstFailure sampleConf envPingFails = some (k, cause)
      ∧ (Errorf redisText ⟨"i/o timeout"⟩).Unwrap = cause
      ∧ (Errorf redisText ⟨"i/o timeout"⟩).msg = textOf k ++ cause.msg
      ∧ (∀ k2, textOf k2 = textOf k → k2 = k)
      ∧ (∀ (c2 : Conf) (env2 : Env) (e2 : WrapError) (k2 : Kind) (cause2 : DriverError),
          (NewData c2 env2).err = some e2 → firstFailure c2 env2 = some (k2, cause2) →
          e2.msg = (Errorf redisText ⟨"i/o timeout"⟩).msg → k2 = k) :=
  ⟨rfl, NewData_error_names_first_failure sampleConf envPingFails _ rfl⟩

/-! ## The accessors -/

/-- C8: after a successful `NewData`, `DB()` returns the handle opened by
`gorm.Open`, `RDB()` returns the Redis client that was created and pinged, and
`RabbitMQ()` returns the dialed connection, and each accessor leaves the `Data`
as it was. -/
theorem accessors_return_acquired_handles (c : Conf) (env : Env) (d : Data)
    (hd : (NewData c env).data = some d) :
    ∃ db rdb conn,
      env.gormOpen c.Database.Source = .ok db
      ∧ rdb = env.redisNewClient (redisOptions c)
      ∧ env.redisPing rdb = none
      ∧ env.amqpDial (rabbitmqConnStr c) = .ok conn
      ∧ d.DB = (some db, d)
      ∧ d.RDB = (some rdb, d)
      ∧ d.RabbitMQ = (some conn, d) := by
  unfold NewData at hd
  cases h1 : env.gormOpen c.Database.Source with
  | error e1 => simp [h1] at hd
  | ok db =>
    cases h2 : env.redisPing (env.redisNewClient (redisOptions c)) with
    | some e2 => simp [h1, h2] at hd
    | none =>
      cases h3 : env.amqpDial (rabbitmqConnStr c) with
      | error e3 => simp [h1, h2, h3] at hd
      | ok conn =>
        simp [h1, h2, h3] at hd
        subst hd
        exact ⟨db, _, conn, rfl, rfl, h2, rfl, rfl, rfl, rfl⟩

/-- The theorem of C8 on a run where the three connectors succeed. -/
theorem accessors_return_acquired_handles_witness :
    (NewData sampleConf envAllOk).data = some ⟨some ⟨1⟩, some ⟨2⟩, some ⟨3⟩⟩
    ∧ ∃ db rdb conn,
      envAllOk.gormOpen sampleConf.Database.Source = .ok db
      ∧ rdb = envAllOk.redisNewClient (redisOptions sampleConf)
      ∧ envAllOk.redisPing rdb = none
      ∧ envAllOk.amqpDial (rabbitmqConnStr sampleConf) = .ok conn
      ∧ (Data.mk (some ⟨1⟩) (some ⟨2⟩) (some ⟨3⟩)).DB = (some db, ⟨some ⟨1⟩, some ⟨2⟩, some ⟨3⟩⟩)
      ∧ (Data.mk (some ⟨1⟩) (some ⟨2⟩) (some ⟨3⟩)).RDB = (some rdb, ⟨some ⟨1⟩, some ⟨2⟩, some ⟨3⟩⟩)
      ∧ (Data.mk (some ⟨1⟩) (some ⟨2⟩) (some ⟨3⟩)).RabbitMQ
          = (some conn, ⟨some ⟨1⟩, some ⟨2⟩, some ⟨3⟩⟩) :=
  ⟨rfl, accessors_return_acquired_handles sampleConf envAllOk _ rfl⟩

/-! ## The teardown -/

/-- C9: one call of the closure returned by a successful `NewData`, for which
`db.DB()` yields the SQL handle and the three `Close` calls return `r1`, `r2` and
`r3`, whatever these are, calls `Close` on the SQL handle, on the Redis client and
on the RabbitMQ connection; every error returned goes to `log.Error` and nowhere
else, and the call returns normally. -/
theorem cleanup_completes_teardown (c : Conf) (env : Env) (cl : Cleanup) (t : List Event)
    (sqlDB : SqlDB) (r1 r2 r3 : Option DriverError)
    (hcl : (NewData c env).cleanup = some cl)
    (hdb : env.gormDB cl.db = .ok sqlDB)
    (h1 : env.sqlClose sqlDB
            (t ++ [Event.logInfo "closing the data resources", Event.gormDB cl.db]) = r1)
    (h2 : env.redisClose cl.rdb
            (t ++ ([Event.logInfo "closing the data resources", Event.gormDB cl.db,
              Event.sqlClose sqlDB] ++ logClose r1)) = r2)
    (h3 : env.amqpClose cl.rabbitmqConn
            (t ++ ([Event.logInfo "closing the data resources", Event.gormDB cl.db,
              Event.sqlClose sqlDB] ++ logClose r1 ++ [Event.redisClose cl.rdb]
              ++ logClose r2)) = r3) :
    env.gormOpen c.Database.Source = .ok cl.db
    ∧ (cl.call env t).completion = Completion.returned
    ∧ (cl.call env t).events
        = [Event.logInfo "closing the data resources", Event.gormDB cl.db,
            Event.sqlClose sqlDB] ++ logClose r1 ++ [Event.redisClose cl.rdb] ++ logClose r2
          ++ [Event.amqpClose cl.rabbitmqConn] ++ logClose r3
    ∧ closes (cl.call env t).events
        = [Event.sqlClose sqlDB, Event.redisClose cl.rdb, Event.amqpClose cl.rabbitmqConn]
    ∧ logged (cl.call env t).events = [r1, r2, r3].reduceOption := by
  have hev : (cl.call env t).events
      = [Event.logInfo "closing the data resources", Event.gormDB cl.db,
          Event.sqlClose sqlDB] ++ logClose r1 ++ [Event.redisClose cl.rdb] ++ logClose r2
        ++ [Event.amqpClose cl.rabbitmqConn] ++ logClose r3 := by
    rw [call_of_sqlDB cl env t sqlDB hdb]
    simp only [List.cons_append, List.nil_append, List.append_assoc] at h1 h2 h3 ⊢
    rw [h1, h2, h3]
  refine ⟨(cleanup_of_NewData c env cl hcl).1, (call_closes cl env t sqlDB hdb).1, hev,
    (call_closes cl env t sqlDB hdb).2, ?_⟩
  rw [hev]
  cases r1 <;> cases r2 <;> cases r3 <;> simp [logged, loggedOf, logClose, List.reduceOption]

/-- The theorem of C9 on a run where each of the three `Close` calls returns an
error. -/
theorem cleanup_completes_teardown_witness :
    (sampleCleanup.call envCloseErrors []).completion = Completion.returned
    ∧ closes (sampleCleanup.call envCloseErrors []).events
        = [Event.sqlClose ⟨4⟩, Event.redisClose ⟨2⟩, Event.amqpClose ⟨3⟩]
    ∧ logged (sampleCleanup.call envCloseErrors []).events
        = [⟨"sql: close failed"⟩, ⟨"redis: client is closed"⟩,
            ⟨"Exception (504) Reason: channel/connection is not open"⟩] :=
  have h := cleanup_completes_teardown sampleConf envCloseErrors sampleCleanup [] ⟨4⟩
    (some ⟨"sql: close failed"⟩) (some ⟨"redis: client is closed"⟩)
    (some ⟨"Exception (504) Reason: channel/connection is not open"⟩) rfl rfl rfl rfl rfl
  ⟨h.2.1, h.2.2.2.1, h.2.2.2.2⟩

/-- C3, as the code has it: one call of the closure returned by a successful
`NewData`, for which `db.DB()` yields the SQL handle, closes the handles in the
order of acquisition: the database first, then the Redis client, then the
RabbitMQ connection. -/
theorem cleanup_closes_in_acquisition_order (c : Conf) (env : Env) (cl : Cleanup)
    (t : List Event) (sqlDB : SqlDB)
    (hcl : (NewData c env).cleanup = some cl)
    (hdb : env.gormDB cl.db = .ok sqlDB) :
    env.gormOpen c.Database.Source = .ok cl.db
    ∧ cl.rdb = env.redisNewClient (redisOptions c)
    ∧ env.amqpDial (rabbitmqConnStr c) = .ok cl.rabbitmqConn
    ∧ closes (cl.call env t).events
        = [Event.sqlClose sqlDB, Event.redisClose cl.rdb, Event.amqpClose cl.rabbitmqConn]
    ∧ closed (cl.call env t).events = declaredOrder := by
  obtain ⟨ho, hr, _, ha, _, _⟩ := cleanup_of_NewData c env cl hcl
  obtain ⟨_, hcs⟩ := call_closes cl env t sqlDB hdb
  refine ⟨ho, hr, ha, hcs, ?_⟩
  have hmap : closed (cl.call env t).events = (closes (cl.call env t).events).filterMap closeOf := by
    simp only [closed, closes]
    rw [List.filterMap_filter]
    congr 1
    funext ev
    cases hco : closeOf ev <;> simp [Option.guard, hco]
  rw [hmap, hcs]
  simp [closeOf, declaredOrder]

/-- The theorem of C3, as the code has it, on a run where every call succeeds. -/
theorem cleanup_closes_in_acquisition_order_witness :
    closes (sampleCleanup.call envAllOk []).events
        = [Event.sqlClose ⟨4⟩, Event.redisClose ⟨2⟩, Event.amqpClose ⟨3⟩]
    ∧ closed (sampleCleanup.call envAllOk []).events = declaredOrder :=
  have h := cleanup_closes_in_acquisition_order sampleConf envAllOk sampleCleanup [] ⟨4⟩ rfl rfl
  ⟨h.2.2.2.1, h.2.2.2.2⟩

/-- C3, as stated, fails: the closure returned by `NewData` when every call
succeeds closes the database first and the RabbitMQ connection last, which is not
the reverse of the order of acquisition. -/
theorem cleanup_not_reverse_order :
    (NewData sampleConf envAllOk).cleanup = some sampleCleanup
    ∧ (sampleCleanup.call envAllOk []).completion = Completion.returned
    ∧ closed (sampleCleanup.call envAllOk []).events
        = [Kind.Database, Kind.Cache, Kind.Broker]
    ∧ closed (sampleCleanup.call envAllOk []).events ≠ declaredOrder.reverse := by
  decide

/-- C2, as the code has it: `n` calls in a row of the closure returned by a
successful `NewData`, with `db.DB()` yielding the SQL handle, all return and call
`Close` `n` times on each of the three handles: the closure has no guard, and
each call, the first as well as any later one, closes the three handles once. -/
theorem cleanup_n_calls_close_n_times (c : Conf) (env : Env) (cl : Cleanup) (sqlDB : SqlDB)
    (n : Nat) (t : List Event)
    (hcl : (NewData c env).cleanup = some cl)
    (hdb : env.gormDB cl.db = .ok sqlDB) :
    env.gormOpen c.Database.Source = .ok cl.db
    ∧ (cl.callN env n t).completion = Completion.returned
    ∧ (cl.callN env n t).events.count (Event.sqlClose sqlDB) = n
    ∧ (cl.callN env n t).events.count (Event.redisClose cl.rdb) = n
    ∧ (cl.callN env n t).events.count (Event.amqpClose cl.rabbitmqConn) = n
    ∧ (cl.call env t).events.count (Event.sqlClose sqlDB) = 1
    ∧ (cl.call env t).events.count (Event.redisClose cl.rdb) = 1
    ∧ (cl.call env t).events.count (Event.amqpClose cl.rabbitmqConn) = 1 := by
  obtain ⟨i0, i1, i2, i3⟩ := callN_counts cl env sqlDB hdb n t
  obtain ⟨j1, j2, j3⟩ := call_counts cl env t sqlDB hdb
  exact ⟨(cleanup_of_NewData c env cl hcl).1, i0, i1, i2, i3, j1, j2, j3⟩

/-- The theorem of C2, as the code has it, on three calls in a row. -/
theorem cleanup_n_calls_close_n_times_witness :
    (sampleCleanup.callN envAllOk 3 []).completion = Completion.returned
    ∧ (sampleCleanup.callN envAllOk 3 []).events.count (Event.sqlClose ⟨4⟩) = 3
    ∧ (sampleCleanup.callN envAllOk 3 []).events.count (Event.redisClose ⟨2⟩) = 3
    ∧ (sampleCleanup.callN envAllOk 3 []).events.count (Event.amqpClose ⟨3⟩) = 3 :=
  have h := cleanup_n_calls_close_n_times sampleConf envAllOk sampleCleanup ⟨4⟩ 3 [] rfl rfl
  ⟨h.2.1, h.2.2.1, h.2.2.2.1, h.2.2.2.2.1⟩

/-- C2, as stated, fails: two calls of the closure returned by `NewData` when
every call succeeds close each of the three handles twice, and the second call
is not a no-op: it performs the three `Close` calls again. -/
theorem cleanup_twice_closes_twice :
    (NewData sampleConf envAllOk).cleanup = some sampleCleanup
    ∧ (sampleCleanup.callN envAllOk 2 []).events.count (Event.sqlClose ⟨4⟩) = 2
    ∧ (sampleCleanup.callN envAllOk 2 []).events.count (Event.redisClose ⟨2⟩) = 2
    ∧ (sampleCleanup.callN envAllOk 2 []).events.count (Event.amqpClose ⟨3⟩) = 2
    ∧ closes (sampleCleanup.call envAllOk (sampleCleanup.call envAllOk []).events).events
        = [Event.sqlClose ⟨4⟩, Event.redisClose ⟨2⟩, Event.amqpClose ⟨3⟩] := by
  decide

/-! ## Where the code leaves a handle open, or panics -/

/-- C1, on the code: when the database opens and the Redis ping fails, `NewData`
returns the error and no closure, having attempted Database and Cache and closed
nothing; when database and Redis succeed and the RabbitMQ dial fails, it returns
the error and no closure, having attempted the three and closed nothing. -/
theorem NewData_leaves_earlier_handles_open :
    ((NewData sampleConf envPingFails).err = some (Errorf redisText ⟨"i/o timeout"⟩)
      ∧ (NewData sampleConf envPingFails).cleanup = none
      ∧ attempted (NewData sampleConf envPingFails).trace = [Kind.Database, Kind.Cache]
      ∧ closed (NewData sampleConf envPingFails).trace = [])
    ∧ ((NewData sampleConf envDialFails).err
          = some (Errorf rabbitmqText ⟨"connection refused"⟩)
      ∧ (NewData sampleConf envDialFails).cleanup = none
      ∧ attempted (NewData sampleConf envDialFails).trace
          = [Kind.Database, Kind.Cache, Kind.Broker]
      ∧ closed (NewData sampleConf envDialFails).trace = []) := by
  decide

/-- C6, on the code: when the Redis client has been created and its ping fails,
the calls `NewData` makes before it returns the error are `gorm.Open`,
`redis.NewClient` and `Ping`: `Close` is not called on the Redis client. -/
theorem NewData_leaves_redis_client_open :
    (NewData sampleConf envPingRefused).err
        = some (Errorf redisText ⟨"connection refused"⟩)
    ∧ (NewData sampleConf envPingRefused).trace
        = [Event.gormOpen sampleConf.Database.Source,
            Event.redisNewClient (redisOptions sampleConf), Event.redisPing ⟨20⟩]
    ∧ (NewData sampleConf envPingRefused).trace.count (Event.redisClose ⟨20⟩) = 0 := by
  decide

/-- C10, as the code has it: one call of the closure returned by a successful
`NewData` returns normally exactly when `db.DB()` yields the SQL handle, as gorm
does for the handle `NewData` opened, and it then performs the three `Close`
calls whatever they return.  The result of `db.DB()` is not checked: when it is
a nil handle and an error, the call stops with a panic at `sqlDB.Close()`, after
`log.Info` and `db.DB()` and before any `Close`. -/
theorem cleanup_returns_iff_sql_handle (c : Conf) (env0 env : Env) (cl : Cleanup)
    (t : List Event) (hcl : (NewData c env0).cleanup = some cl) :
    env0.gormOpen c.Database.Source = .ok cl.db
    ∧ ((cl.call env t).completion = Completion.returned ↔
        ∃ sqlDB, env.gormDB cl.db = .ok sqlDB)
    ∧ (∀ sqlDB, env.gormDB cl.db = .ok sqlDB →
        closes (cl.call env t).events
          = [Event.sqlClose sqlDB, Event.redisClose cl.rdb,
              Event.amqpClose cl.rabbitmqConn])
    ∧ (∀ err, env.gormDB cl.db = .error err →
        cl.call env t
          = ⟨Completion.panicked,
              [Event.logInfo "closing the data resources", Event.gormDB cl.db]⟩) := by
  refine ⟨(cleanup_of_NewData c env0 cl hcl).1, ?_, ?_, ?_⟩
  · cases h : env.gormDB cl.db with
    | error err => simp [Cleanup.call, h]
    | ok sqlDB => simp [(call_closes cl env t sqlDB h).1]
  · intro sqlDB h
    exact (call_closes cl env t sqlDB h).2
  · intro err h
    simp [Cleanup.call, h]

/-- The theorem of C10, as the code has it, on a shutdown where `db.DB()` yields
the SQL handle and each of the three `Close` calls returns an error. -/
theorem cleanup_returns_iff_sql_handle_witness :
    (NewData sampleConf envAllOk).cleanup = some sampleCleanup
    ∧ (sampleCleanup.call envCloseErrors []).completion = Completion.returned
    ∧ closes (sampleCleanup.call envCloseErrors []).events
        = [Event.sqlClose ⟨4⟩, Event.redisClose ⟨2⟩, Event.amqpClose ⟨3⟩] :=
  have h := cleanup_returns_iff_sql_handle sampleConf envAllOk envCloseErrors sampleCleanup []
    rfl
  ⟨rfl, h.2.1.mpr ⟨⟨4⟩, rfl⟩, h.2.2.1 ⟨4⟩ rfl⟩

/-- C10, as stated, fails: in the case it names, `db.DB()` returning a nil handle
and an error, one call of the closure that `NewData` returned does not return
normally: it panics at `sqlDB.Close()`, and neither the Redis client nor the
RabbitMQ connection is closed. -/
theorem cleanup_panics_without_sql_handle :
    (NewData sampleConf envAllOk).cleanup = some sampleCleanup
    ∧ envNoSqlDB.gormDB sampleCleanup.db = .error ⟨"invalid db"⟩
    ∧ sampleCleanup.call envNoSqlDB []
        = ⟨Completion.panicked,
            [Event.logInfo "closing the data resources", Event.gormDB ⟨1⟩]⟩
    ∧ (sampleCleanup.call envNoSqlDB []).completion ≠ Completion.returned
    ∧ closes (sampleCleanup.call envNoSqlDB []).events = [] := by
  refine ⟨rfl, rfl, ?_, ?_, ?_⟩ <;> decide

end ExchangeService
